import Mathlib

/-!
Shallow embedding of `src/src/sidebar-container.component.ts` from the
`ng-sidebar` repository: the `SidebarContainer` component, whose job is to
compute content-area styles from a set of sidebar panels and to arbitrate a
shared backdrop visibility signal.

Modelling conventions:
* Panel references held by the container may be null in TypeScript, so the
  tracked sequence is a `List (Option Sidebar)`; `none` is a null reference.
* Accessing a field of a null reference throws in TypeScript; operations that
  may do so are modelled with an explicit completion flag or `Except`.
* TypeScript numbers used as pixel sizes are modelled as `Nat` (the spec calls
  them numeric pixel sizes); `Math.max` is `Nat.max`.
* Template-string interpolation is string concatenation with `toString`.
-/

namespace NgSidebar

/-- The `position` input of a sidebar panel: one of the four strings
`left`, `right`, `top`, `bottom`. -/
inductive Position where
  | left
  | right
  | top
  | bottom
deriving DecidableEq, Repr

/-- The fields of the external `Sidebar` component that
`sidebar-container.component.ts` reads (it treats them read-only).
The `_isMode*` / `_isDocked` flags are derived by the panel itself outside
this file's source, so they appear here as plain boolean fields holding
whatever value the panel exposes. -/
structure Sidebar where
  position : Position
  opened : Bool
  dock : Bool
  showBackdrop : Bool
  closeOnClickBackdrop : Bool
  _isModeSlide : Bool
  _isModePush : Bool
  _isModeOver : Bool
  _isDocked : Bool
  _width : Nat
  _height : Nat
  _dockedSize : Nat
deriving DecidableEq, Repr

/-- Embeds `sidebar.position === 'left' || sidebar.position === 'right'`. -/
def isLeftOrRight (s : Sidebar) : Bool :=
  s.position == Position.left || s.position == Position.right

/-- Embeds `sidebar.position === 'left' || sidebar.position === 'top'`. -/
def isLeftOrTop (s : Sidebar) : Bool :=
  s.position == Position.left || s.position == Position.top

/-- The style record returned by `_getContentStyles` (nullable string fields
become `Option String`). -/
structure ContentStyle where
  padding : String
  webkitTransform : Option String
  transform : Option String
  height : Option String
  width : Option String
deriving DecidableEq, Repr

/-- The local mutable variables of `_getContentStyles`
(`left`, `right`, `top`, `bottom`, `transformStyle`, `heightStyle`,
`widthStyle`). -/
structure StyleAcc where
  left : Nat
  right : Nat
  top : Nat
  bottom : Nat
  transformStyle : Option String
  heightStyle : Option String
  widthStyle : Option String
deriving DecidableEq, Repr

/-- Initial values of the locals: all paddings `0`, all style strings null. -/
def initAcc : StyleAcc := ⟨0, 0, 0, 0, none, none, none⟩

/-- The transform string built in the slide branch:
`translate${transformDir}(${transformAmt}px)` with
`transformDir = isLeftOrRight ? 'X' : 'Y'` and
`transformAmt = `${isLeftOrTop ? '' : '-'}${isLeftOrRight ? _width : _height}``. -/
def transformOf (s : Sidebar) : String :=
  "translate" ++ (if isLeftOrRight s then "X" else "Y") ++ "("
    ++ (if isLeftOrTop s then "" else "-")
    ++ toString (if isLeftOrRight s then s._width else s._height) ++ "px)"

/-- The `offsetDim` string of the docked-slide branch, exactly as the source
builds it: `` `calc(100% - ${sidebar._dockedSize}px` `` — note that the
template literal in the source ends after `px`, without a closing `)`. -/
def offsetDimOf (s : Sidebar) : String :=
  "calc(100% - " ++ toString s._dockedSize ++ "px"

/-- Writes `offsetDim` into `widthStyle` for left/right panels and into
`heightStyle` for top/bottom panels. -/
def setOffsetDim (acc : StyleAcc) (s : Sidebar) : StyleAcc :=
  if isLeftOrRight s then { acc with widthStyle := some (offsetDimOf s) }
  else { acc with heightStyle := some (offsetDimOf s) }

/-- The `paddingAmt` computed in the non-slide branch:
`_dockedSize` if `_isDocked || (_isModeOver && dock)`, otherwise the extent
along the panel's axis. -/
def paddingAmtOf (s : Sidebar) : Nat :=
  if s._isDocked || (s._isModeOver && s.dock) then s._dockedSize
  else if isLeftOrRight s then s._width else s._height

/-- The `switch (sidebar.position)` at the end of the reserve-space block:
`side = Math.max(side, paddingAmt)` on the panel's own side. -/
def bumpPadding (acc : StyleAcc) (pos : Position) (amt : Nat) : StyleAcc :=
  match pos with
  | Position.left => { acc with left := max acc.left amt }
  | Position.right => { acc with right := max acc.right amt }
  | Position.top => { acc with top := max acc.top amt }
  | Position.bottom => { acc with bottom := max acc.bottom amt }

/-- The body of the `forEach` in `_getContentStyles`, acting on the locals.
A `none` (null sidebar) returns the locals unchanged (`if (!sidebar) return`).
In the reserve-space block, the slide-and-opened case leaves `paddingAmt` at
its initial `0` and sets the width/height override; either way the position
switch then runs with the computed `paddingAmt`. -/
def styleStep (acc : StyleAcc) (osb : Option Sidebar) : StyleAcc :=
  match osb with
  | none => acc
  | some sidebar =>
    let acc1 :=
      if sidebar._isModeSlide && sidebar.opened then
        { acc with transformStyle := some (transformOf sidebar) }
      else acc
    if (sidebar._isModePush && sidebar.opened) || sidebar.dock then
      if sidebar._isModeSlide && sidebar.opened then
        bumpPadding (setOffsetDim acc1 sidebar) sidebar.position 0
      else
        bumpPadding acc1 sidebar.position (paddingAmtOf sidebar)
    else acc1

/-- The locals after the `forEach` over the tracked sidebar sequence. -/
def foldAcc (sbs : List (Option Sidebar)) : StyleAcc :=
  sbs.foldl styleStep initAcc

/-- The method `_getContentStyles`: runs the `forEach` and assembles the returned style
record, rendering the four paddings as the shorthand
`${top}px ${right}px ${bottom}px ${left}px`. -/
def _getContentStyles (sbs : List (Option Sidebar)) : ContentStyle :=
  let acc := foldAcc sbs
  { padding := toString acc.top ++ "px " ++ toString acc.right ++ "px "
      ++ toString acc.bottom ++ "px " ++ toString acc.left ++ "px"
    webkitTransform := acc.transformStyle
    transform := acc.transformStyle
    height := acc.heightStyle
    width := acc.widthStyle }

/-- A panel enters the reserve-space block iff
`(sidebar._isModePush && sidebar.opened) || sidebar.dock`. -/
def contributes (s : Sidebar) : Bool :=
  (s._isModePush && s.opened) || s.dock

/-- The padding amount a contributing panel feeds into its side's
`Math.max`: `0` when it is slide-mode and opened (that case sets a
width/height override instead), otherwise `paddingAmtOf`. -/
def reservedAmount (s : Sidebar) : Nat :=
  if s._isModeSlide && s.opened then 0 else paddingAmtOf s

/-- The reserved amounts of the non-null contributing panels at a given
position, in iteration order. -/
def contribList (pos : Position) (sbs : List (Option Sidebar)) : List Nat :=
  ((sbs.filterMap id).filter (fun s => s.position == pos && contributes s)).map
    reservedAmount

/-- Projects the padding accumulator for one side out of the locals. -/
def sideOf (acc : StyleAcc) (pos : Position) : Nat :=
  match pos with
  | Position.left => acc.left
  | Position.right => acc.right
  | Position.top => acc.top
  | Position.bottom => acc.bottom

/-- The state of the `SidebarContainer` component that the embedded methods
read or write: the platform flag set in the constructor, the
`allowSidebarBackdropControl` and `showBackdrop` inputs, and the tracked
sidebar sequence. -/
structure ContainerState where
  _isBrowser : Bool
  allowSidebarBackdropControl : Bool
  showBackdrop : Bool
  _sidebars : List (Option Sidebar)
deriving DecidableEq, Repr

/-- An event emitted on the container's output: `showBackdropChange.emit(b)`. -/
inductive Event where
  | showBackdropChange (b : Bool)
deriving DecidableEq, Repr

/-- Embeds `Array.prototype.some` over the tracked sequence with the predicate
`sidebar => sidebar.opened && sidebar.showBackdrop` of `_onToggle`, which has
no null guard: evaluating the predicate on a null reference throws
(`Except.error ()`); a satisfying panel found earlier short-circuits. -/
def someOpenBackdrop : List (Option Sidebar) → Except Unit Bool
  | [] => Except.ok false
  | none :: _ => Except.error ()
  | some s :: rest =>
    if s.opened && s.showBackdrop then Except.ok true
    else someOpenBackdrop rest

/-- The method `_onToggle` (minus the deferred `setTimeout(markForCheck)`, which only
schedules change detection): when `allowSidebarBackdropControl` holds, it
recomputes `hasOpen` with `some`, writes it to `showBackdrop` and emits it;
otherwise it touches neither the state nor the output.  Returns the updated
state and the emitted events, or an error if the `some` callback faulted on a
null reference. -/
def _onToggle (st : ContainerState) : Except Unit (ContainerState × List Event) :=
  if st.allowSidebarBackdropControl then
    match someOpenBackdrop st._sidebars with
    | Except.error e => Except.error e
    | Except.ok hasOpen =>
      Except.ok ({ st with showBackdrop := hasOpen },
        [Event.showBackdropChange hasOpen])
  else Except.ok (st, [])

/-- The method `_onBackdropClicked`: a `forEach` over the tracked sequence with no null
guard, calling `close()` on each panel with
`opened && showBackdrop && closeOnClickBackdrop`.  Returns the panels whose
`close()` was invoked, in iteration order, paired with `true` if the
iteration completed and `false` if it faulted on a null reference (panels
closed before the fault are still listed). -/
def _onBackdropClicked : List (Option Sidebar) → List Sidebar × Bool
  | [] => ([], true)
  | none :: _ => ([], false)
  | some s :: rest =>
    let hd := if s.opened && s.showBackdrop && s.closeOnClickBackdrop
      then [s] else []
    let (tl, completed) := _onBackdropClicked rest
    (hd ++ tl, completed)

/-- The method `_unsubscribe`: a `forEach` over the tracked sequence with a null guard
(`if (!sidebar) return`), releasing the seven subscriptions of each non-null
panel.  Returns the panels whose subscriptions were released, in order. -/
def _unsubscribe : List (Option Sidebar) → List Sidebar
  | [] => []
  | none :: rest => _unsubscribe rest
  | some s :: rest => s :: _unsubscribe rest

/-- The hook `ngAfterContentInit`: returns immediately when `_isBrowser` is false,
otherwise runs `_onToggle` and subscribes to the registry's `onRegister`.
The final boolean records whether the registry subscription was made. -/
def ngAfterContentInit (st : ContainerState) :
    Except Unit (ContainerState × List Event × Bool) :=
  if !st._isBrowser then Except.ok (st, [], false)
  else
    match _onToggle st with
    | Except.error e => Except.error e
    | Except.ok (st1, evs) => Except.ok (st1, evs, true)

/-- The hook `ngOnChanges`: returns immediately when `_isBrowser` is false, otherwise
emits `showBackdropChange` with the current value when the `showBackdrop`
input changed.  The argument is the `currentValue` of the `showBackdrop`
entry of `changes`, when present. -/
def ngOnChanges (st : ContainerState) (showBackdropCurrent : Option Bool) :
    ContainerState × List Event :=
  if !st._isBrowser then (st, [])
  else
    match showBackdropCurrent with
    | some v => (st, [Event.showBackdropChange v])
    | none => (st, [])

/-- The hook `ngOnDestroy`: returns immediately when `_isBrowser` is false, otherwise
runs `_unsubscribe`.  Returns the panels whose subscriptions were released. -/
def ngOnDestroy (st : ContainerState) : List Sidebar :=
  if !st._isBrowser then [] else _unsubscribe st._sidebars

/-- The template binding `[ngStyle]="_getContentStyles()"`: invokes
`_getContentStyles` on the container's tracked sequence.  No platform check
guards this call in the source. -/
def renderContentStyles (st : ContainerState) : ContentStyle :=
  _getContentStyles st._sidebars

/-- The method `_getContentStyles` as a state transformer, to state that the method
reads but never writes the container state: the source assigns only to the
local variables modelled by `StyleAcc`. -/
def _getContentStylesS (st : ContainerState) : ContainerState × ContentStyle :=
  (st, renderContentStyles st)

/-- Whether some tracked panel is non-null with `opened && showBackdrop`:
the arbitration condition of the spec. -/
def hasOpenBackdrop (sbs : List (Option Sidebar)) : Bool :=
  sbs.any (fun osb =>
    match osb with
    | some s => s.opened && s.showBackdrop
    | none => false)

/-- A panel is in slide mode and opened (the transform branch fires). -/
def slideOpened (s : Sidebar) : Bool :=
  s._isModeSlide && s.opened

/-- Example panel: slide mode, position left, width 300, opened, no dock.
Fields: position, opened, dock, showBackdrop, closeOnClickBackdrop,
_isModeSlide, _isModePush, _isModeOver, _isDocked, _width, _height,
_dockedSize. -/
def pSlideLeft : Sidebar :=
  ⟨Position.left, true, false, false, false, true, false, false, false,
    300, 0, 0⟩

/-- Example panel: slide mode, position left, opened, dock set,
dockedSize 56 (the docked-slide sizing scenario). -/
def pDockSlide : Sidebar :=
  ⟨Position.left, true, true, false, false, true, false, false, false,
    300, 0, 56⟩

/-- Example panel: push mode, position left, opened, of a given width. -/
def pPushLeft (w : Nat) : Sidebar :=
  ⟨Position.left, true, false, false, false, false, true, false, false,
    w, 0, 0⟩

/-- Example panel: overlay mode, opened, requesting a backdrop, with a
given `closeOnClickBackdrop` flag. -/
def pBackdrop (c : Bool) : Sidebar :=
  ⟨Position.left, true, false, true, c, false, false, true, false,
    10, 10, 5⟩

/-- Example panel: slide mode, position bottom, height 40, opened. -/
def pSlideBottom : Sidebar :=
  ⟨Position.bottom, true, false, false, false, true, false, false, false,
    0, 40, 0⟩

/-- Example container state: not a browser platform, backdrop control
allowed, one open push-mode left panel of width 200. -/
def stNoBrowser : ContainerState :=
  ⟨false, true, false, [some (pPushLeft 200)]⟩

/-- Example container state: browser platform, backdrop control allowed,
one open panel requesting the backdrop. -/
def stToggleDemo : ContainerState :=
  ⟨true, true, false, [some (pBackdrop true)]⟩

/-- Example container state: browser platform, backdrop control allowed,
whose tracked sequence holds a single null reference. -/
def stNullToggle : ContainerState :=
  ⟨true, true, false, [none]⟩

/-! ### Helper lemmas on the padding accumulators -/

theorem sideOf_setTransform (acc : StyleAcc) (t : Option String)
    (pos : Position) :
    sideOf { acc with transformStyle := t } pos = sideOf acc pos := by
  cases pos <;> rfl

theorem sideOf_setOffsetDim (acc : StyleAcc) (s : Sidebar) (pos : Position) :
    sideOf (setOffsetDim acc s) pos = sideOf acc pos := by
  unfold setOffsetDim
  split <;> cases pos <;> rfl

theorem sideOf_bumpPadding (acc : StyleAcc) (p q : Position) (amt : Nat) :
    sideOf (bumpPadding acc p amt) q =
      if p == q then max (sideOf acc q) amt else sideOf acc q := by
  cases p <;> cases q <;> rfl

/-- Effect of one `forEach` step on one side's accumulator: a non-null panel
bumps its own side by its reserved amount exactly when it contributes, and
changes no other side. -/
theorem sideOf_styleStep (acc : StyleAcc) (s : Sidebar) (pos : Position) :
    sideOf (styleStep acc (some s)) pos =
      if s.position == pos && contributes s
      then max (sideOf acc pos) (reservedAmount s)
      else sideOf acc pos := by
  by_cases hs : (s._isModeSlide && s.opened) = true <;>
  by_cases hc : ((s._isModePush && s.opened) || s.dock) = true <;>
    simp [styleStep, contributes, reservedAmount, hs, hc, sideOf_bumpPadding,
      sideOf_setOffsetDim, sideOf_setTransform]

theorem contribList_nil (pos : Position) : contribList pos [] = [] := rfl

theorem contribList_cons_none (pos : Position) (rest : List (Option Sidebar)) :
    contribList pos (none :: rest) = contribList pos rest := rfl

theorem contribList_cons_some (pos : Position) (s : Sidebar)
    (rest : List (Option Sidebar)) :
    contribList pos (some s :: rest) =
      if s.position == pos && contributes s
      then reservedAmount s :: contribList pos rest
      else contribList pos rest := by
  simp only [contribList, List.filterMap_cons, id, List.filter_cons]
  split <;> simp

/-- The side accumulators of the `forEach`, started from arbitrary locals,
are the `max`-folds of the reserved amounts of the contributing panels. -/
theorem sideOf_foldl (sbs : List (Option Sidebar)) (acc : StyleAcc)
    (pos : Position) :
    sideOf (sbs.foldl styleStep acc) pos =
      (contribList pos sbs).foldl max (sideOf acc pos) := by
  induction sbs generalizing acc with
  | nil => rfl
  | cons osb rest ih =>
    cases osb with
    | none =>
      rw [contribList_cons_none]
      exact ih acc
    | some s =>
      rw [List.foldl_cons, ih (styleStep acc (some s)), contribList_cons_some,
        sideOf_styleStep]
      split <;> simp

theorem foldl_max_seed_le (l : List Nat) : ∀ a : Nat, a ≤ l.foldl max a := by
  induction l with
  | nil => intro a; exact le_refl a
  | cons b m ih => intro a; exact le_trans (le_max_left a b) (ih (max a b))

theorem foldl_max_le (l : List Nat) : ∀ a x : Nat, x ∈ l → x ≤ l.foldl max a := by
  induction l with
  | nil => intro _ _ hx; cases hx
  | cons b m ih =>
    intro a x hx
    rcases List.mem_cons.mp hx with h | h
    · subst h
      exact le_trans (le_max_right a x) (foldl_max_seed_le m (max a x))
    · exact ih (max a b) x h

theorem foldl_max_mem_or_seed (l : List Nat) (a : Nat) :
    l.foldl max a = a ∨ l.foldl max a ∈ l := by
  induction l generalizing a with
  | nil => exact Or.inl rfl
  | cons b m ih =>
    rcases ih (max a b) with h | h
    · rcases Nat.le_total a b with hab | hba
      · right
        rw [List.foldl_cons, h, max_eq_right hab]
        exact List.mem_cons_self b m
      · left
        rw [List.foldl_cons, h, max_eq_left hba]
    · right
      exact List.mem_cons_of_mem b h

/-! ### Helper lemmas on the transform override -/

theorem transformStyle_bumpPadding (acc : StyleAcc) (p : Position) (amt : Nat) :
    (bumpPadding acc p amt).transformStyle = acc.transformStyle := by
  cases p <;> rfl

theorem transformStyle_setOffsetDim (acc : StyleAcc) (s : Sidebar) :
    (setOffsetDim acc s).transformStyle = acc.transformStyle := by
  unfold setOffsetDim
  split <;> rfl

/-- Effect of one `forEach` step on the transform local: a slide-mode opened
panel overwrites it with its own transform; any other panel leaves it. -/
theorem transformStyle_styleStep (acc : StyleAcc) (s : Sidebar) :
    (styleStep acc (some s)).transformStyle =
      if slideOpened s then some (transformOf s) else acc.transformStyle := by
  by_cases hs : (s._isModeSlide && s.opened) = true <;>
  by_cases hc : ((s._isModePush && s.opened) || s.dock) = true <;>
    simp [styleStep, slideOpened, hs, hc, transformStyle_bumpPadding,
      transformStyle_setOffsetDim]

theorem getLast?_cons_getD (a : Sidebar) (l : List Sidebar) :
    (a :: l).getLast? = some (l.getLast?.getD a) := by
  induction l generalizing a with
  | nil => rfl
  | cons b m ih => simp [List.getLast?_cons_cons, ih]

/-- The transform local after the `forEach` is the transform of the last
non-null slide-mode opened panel, or the starting value when there is
none. -/
theorem transformStyle_foldl (sbs : List (Option Sidebar)) :
    ∀ acc : StyleAcc,
    (sbs.foldl styleStep acc).transformStyle =
      match ((sbs.filterMap id).filter slideOpened).getLast? with
      | some s => some (transformOf s)
      | none => acc.transformStyle := by
  induction sbs with
  | nil => intro acc; rfl
  | cons osb rest ih =>
    intro acc
    cases osb with
    | none => simpa using ih acc
    | some s =>
      rw [List.foldl_cons, ih (styleStep acc (some s))]
      by_cases h : slideOpened s = true
      · simp only [List.filterMap_cons, id, List.filter_cons, h, if_true]
        rw [getLast?_cons_getD]
        cases hL : ((rest.filterMap id).filter slideOpened).getLast? <;>
          simp [hL, transformStyle_styleStep, h]
      · simp only [List.filterMap_cons, id, List.filter_cons, h, if_false]
        cases hL : ((rest.filterMap id).filter slideOpened).getLast? <;>
          simp [hL, transformStyle_styleStep, h]

/-! ### Helper lemmas on the backdrop arbitration -/

theorem someOpenBackdrop_ok (sbs : List (Option Sidebar)) :
    ∀ b : Bool, someOpenBackdrop sbs = Except.ok b →
      hasOpenBackdrop sbs = b := by
  induction sbs with
  | nil =>
    intro b h
    simp only [someOpenBackdrop, Except.ok.injEq] at h
    simp [hasOpenBackdrop, ← h]
  | cons osb rest ih =>
    intro b h
    cases osb with
    | none => simp [someOpenBackdrop] at h
    | some s =>
      by_cases hp : (s.opened && s.showBackdrop) = true
      · simp only [someOpenBackdrop, hp, if_true, Except.ok.injEq] at h
        simp [hasOpenBackdrop, hp, ← h]
      · simp only [someOpenBackdrop, hp, if_false] at h
        have := ih b h
        simp only [hasOpenBackdrop, List.any_cons] at this ⊢
        simp [hp, this]

theorem hasOpenBackdrop_iff (sbs : List (Option Sidebar)) :
    hasOpenBackdrop sbs = true ↔
      ∃ s : Sidebar, some s ∈ sbs ∧ s.opened = true ∧ s.showBackdrop = true := by
  rw [hasOpenBackdrop, List.any_eq_true]
  constructor
  · rintro ⟨osb, hmem, hp⟩
    cases osb with
    | none => simp at hp
    | some s =>
      simp only [Bool.and_eq_true] at hp
      exact ⟨s, hmem, hp.1, hp.2⟩
  · rintro ⟨s, hmem, ho, hb⟩
    exact ⟨some s, hmem, by simp [ho, hb]⟩

/-! ### Helper lemmas on null-reference handling -/

theorem foldl_styleStep_filter (sbs : List (Option Sidebar)) :
    ∀ acc : StyleAcc,
    sbs.foldl styleStep acc =
      (sbs.filter (fun osb => osb.isSome)).foldl styleStep acc := by
  induction sbs with
  | nil => intro _; rfl
  | cons osb rest ih =>
    intro acc
    cases osb with
    | none => simpa [List.filter_cons] using ih acc
    | some s => simpa [List.filter_cons] using ih (styleStep acc (some s))

theorem unsubscribe_eq_filterMap (sbs : List (Option Sidebar)) :
    _unsubscribe sbs = sbs.filterMap id := by
  induction sbs with
  | nil => rfl
  | cons osb rest ih =>
    cases osb <;> simp [_unsubscribe, List.filterMap_cons, ih]

theorem foldl_max_zero_mem (l : List Nat) (hne : l ≠ []) :
    l.foldl max 0 ∈ l := by
  rcases foldl_max_mem_or_seed l 0 with h | h
  · cases l with
    | nil => exact absurd rfl hne
    | cons b m =>
      have hb : b ≤ (b :: m).foldl max 0 :=
        foldl_max_le _ 0 b (List.mem_cons_self b m)
      rw [h] at hb
      rw [h, ← Nat.le_zero.mp hb]
      exact List.mem_cons_self b m
  · exact h

theorem transformOf_left (s : Sidebar) (h : s.position = Position.left) :
    transformOf s = "translateX(" ++ toString s._width ++ "px)" := by
  unfold transformOf isLeftOrRight isLeftOrTop
  rw [h]
  rfl

theorem transformOf_right (s : Sidebar) (h : s.position = Position.right) :
    transformOf s = "translateX(-" ++ toString s._width ++ "px)" := by
  unfold transformOf isLeftOrRight isLeftOrTop
  rw [h]
  rfl

theorem transformOf_top (s : Sidebar) (h : s.position = Position.top) :
    transformOf s = "translateY(" ++ toString s._height ++ "px)" := by
  unfold transformOf isLeftOrRight isLeftOrTop
  rw [h]
  rfl

theorem transformOf_bottom (s : Sidebar) (h : s.position = Position.bottom) :
    transformOf s = "translateY(-" ++ toString s._height ++ "px)" := by
  unfold transformOf isLeftOrRight isLeftOrTop
  rw [h]
  rfl

/-! ### Claim theorems -/

/-- Claim C1: for every sequence of panels, each side's computed padding is
the maximum, over the non-null panels at that position that contribute
reserved space (`(push && opened) || dock`), of each panel's individual
reserved amount (`max`-fold with seed `0`): it bounds every individual
contribution, it is `0` when no panel at that position contributes, and it
is itself one of the contributions otherwise — contributions are never
summed.  The returned style's `padding` renders exactly these four
per-side maxima. -/
theorem c1_padding_max_aggregation (sbs : List (Option Sidebar)) :
    (∀ pos : Position,
      sideOf (foldAcc sbs) pos = (contribList pos sbs).foldl max 0
      ∧ (∀ a ∈ contribList pos sbs, a ≤ sideOf (foldAcc sbs) pos)
      ∧ (contribList pos sbs = [] → sideOf (foldAcc sbs) pos = 0)
      ∧ (contribList pos sbs ≠ [] →
          sideOf (foldAcc sbs) pos ∈ contribList pos sbs))
    ∧ (_getContentStyles sbs).padding =
        toString (sideOf (foldAcc sbs) Position.top) ++ "px "
          ++ toString (sideOf (foldAcc sbs) Position.right) ++ "px "
          ++ toString (sideOf (foldAcc sbs) Position.bottom) ++ "px "
          ++ toString (sideOf (foldAcc sbs) Position.left) ++ "px" := by
  have key : ∀ pos : Position,
      sideOf (foldAcc sbs) pos = (contribList pos sbs).foldl max 0 := by
    intro pos
    have base : sideOf initAcc pos = 0 := by cases pos <;> rfl
    have h := sideOf_foldl sbs initAcc pos
    rw [base] at h
    exact h
  refine ⟨fun pos => ⟨key pos, ?_, ?_, ?_⟩, rfl⟩
  · intro a ha
    rw [key pos]
    exact foldl_max_le _ 0 a ha
  · intro he
    rw [key pos, he]
    rfl
  · intro hne
    rw [key pos]
    exact foldl_max_zero_mem _ hne

/-- Witness for C1 at a concrete input: two open push-mode left panels of
widths 200 and 80; the computed left padding is 200 — a member of the
contribution list bounding both contributions, not the sum 280. -/
theorem c1_witness :
    (200 ∈ contribList Position.left [some (pPushLeft 200), some (pPushLeft 80)]
      ∧ contribList Position.left [some (pPushLeft 200), some (pPushLeft 80)] ≠ [])
    ∧ 200 ≤ sideOf (foldAcc [some (pPushLeft 200), some (pPushLeft 80)]) Position.left
    ∧ sideOf (foldAcc [some (pPushLeft 200), some (pPushLeft 80)]) Position.left
        ∈ contribList Position.left [some (pPushLeft 200), some (pPushLeft 80)] := by
  refine ⟨⟨by decide, by decide⟩, ?_, ?_⟩
  · exact ((c1_padding_max_aggregation _).1 Position.left).2.1 200 (by decide)
  · exact ((c1_padding_max_aggregation _).1 Position.left).2.2.2 (by decide)

/-- Counterexample to claim C3 as stated: the code's transform sign is
positive for left/top and negative for right/bottom, not the other way
round.  A slide-mode opened left panel of width 300 yields
`translateX(300px)` (not `translateX(-300px)`), and a slide-mode opened
bottom panel of height 40 yields `translateY(-40px)` (not
`translateY(40px)`). -/
theorem c3_counterexample :
    (_getContentStyles [some pSlideLeft]).transform = some "translateX(300px)"
    ∧ (_getContentStyles [some pSlideLeft]).transform ≠ some "translateX(-300px)"
    ∧ (_getContentStyles [some pSlideBottom]).transform = some "translateY(-40px)"
    ∧ (_getContentStyles [some pSlideBottom]).transform ≠ some "translateY(40px)" := by
  exact ⟨rfl, by decide, rfl, by decide⟩

/-- Claim C3 (amended): for every panel in slide mode with `opened`, the
computed transform's axis is `X` for left/right positions and `Y` for
top/bottom, its magnitude is `_width` for left/right and `_height` for
top/bottom, and its sign is positive for left/top positions and negative
for right/bottom positions. -/
theorem c3_amended_transform_sign (acc : StyleAcc) (s : Sidebar)
    (hm : s._isModeSlide = true) (ho : s.opened = true) :
    (styleStep acc (some s)).transformStyle =
      some (match s.position with
        | Position.left => "translateX(" ++ toString s._width ++ "px)"
        | Position.right => "translateX(-" ++ toString s._width ++ "px)"
        | Position.top => "translateY(" ++ toString s._height ++ "px)"
        | Position.bottom => "translateY(-" ++ toString s._height ++ "px)") := by
  rw [transformStyle_styleStep]
  have hs : slideOpened s = true := by simp [slideOpened, hm, ho]
  rw [hs]
  simp only [if_true]
  cases hp : s.position with
  | left => rw [transformOf_left s hp]
  | right => rw [transformOf_right s hp]
  | top => rw [transformOf_top s hp]
  | bottom => rw [transformOf_bottom s hp]

/-- Witness for C3 (amended) at a concrete input: the slide-mode opened left
panel of width 300 receives the positive-signed `translateX(300px)`. -/
theorem c3_amended_witness :
    pSlideLeft._isModeSlide = true ∧ pSlideLeft.opened = true
    ∧ (styleStep initAcc (some pSlideLeft)).transformStyle =
        some "translateX(300px)" :=
  ⟨rfl, rfl,
    (c3_amended_transform_sign initAcc pSlideLeft rfl rfl).trans (by decide)⟩

/-- Claim C4 (code bug): for the docked slide panel (slide mode, left,
opened, dock set, `dockedSize` 56) the source emits
`width = "calc(100% - 56px"` — the template literal at line 157 of
`sidebar-container.component.ts` lacks the closing parenthesis — whereas the
spec requires the well-formed `"calc(100% - 56px)"`.  The panel leaves the
left padding accumulator unaffected as claimed. -/
theorem c4_docked_slide_calc :
    (_getContentStyles [some pDockSlide]).width = some "calc(100% - 56px"
    ∧ (_getContentStyles [some pDockSlide]).width ≠ some "calc(100% - 56px)"
    ∧ sideOf (foldAcc [some pDockSlide]) Position.left = 0
    ∧ (∀ acc : StyleAcc, (styleStep acc (some pDockSlide)).left = acc.left) := by
  refine ⟨rfl, by decide, rfl, ?_⟩
  intro acc
  show (bumpPadding (setOffsetDim { acc with
    transformStyle := some (transformOf pDockSlide) } pDockSlide)
    Position.left 0).left = acc.left
  simp only [bumpPadding, setOffsetDim, isLeftOrRight, pDockSlide]
  split <;> simp

/-- Claim C5: a single panel with slide mode, position left, width 300,
opened, no dock produces `transform = "translateX(300px)"` and a left
padding of 0 (rendered padding `"0px 0px 0px 0px"`). -/
theorem c5_slide_overrides_padding :
    (_getContentStyles [some pSlideLeft]).transform = some "translateX(300px)"
    ∧ sideOf (foldAcc [some pSlideLeft]) Position.left = 0
    ∧ (_getContentStyles [some pSlideLeft]).padding = "0px 0px 0px 0px" :=
  ⟨rfl, rfl, rfl⟩

/-- Claim C9: when the sequence holds two or more slide-mode opened panels,
the computed style carries a single transform value (`transform` and its
vendor-prefixed alias are the same one string), and it is the transform of
the last such panel in iteration order — each later slide-and-opened panel
overwrites the transform of earlier ones. -/
theorem c9_last_slide_transform_wins (sbs : List (Option Sidebar)) (s : Sidebar)
    (hlen : 2 ≤ ((sbs.filterMap id).filter slideOpened).length)
    (hlast : ((sbs.filterMap id).filter slideOpened).getLast? = some s) :
    (_getContentStyles sbs).transform = some (transformOf s)
    ∧ (_getContentStyles sbs).webkitTransform = some (transformOf s) := by
  have h := transformStyle_foldl sbs initAcc
  rw [hlast] at h
  exact ⟨h, h⟩

/-- Witness for C9 at a concrete input: a slide-left panel followed by a
slide-bottom panel; the bottom panel is processed last and its transform
wins. -/
theorem c9_witness :
    2 ≤ (([some pSlideLeft, some pSlideBottom].filterMap id).filter
      slideOpened).length
    ∧ (_getContentStyles [some pSlideLeft, some pSlideBottom]).transform =
        some (transformOf pSlideBottom) :=
  ⟨by decide,
    (c9_last_slide_transform_wins [some pSlideLeft, some pSlideBottom]
      pSlideBottom (by decide) (by decide)).1⟩

/-- Claim C2: a successful toggle recomputation with
`allowSidebarBackdropControl` true sets `showBackdrop` to true iff the
control flag is true and some tracked panel is non-null with both `opened`
and `showBackdrop`, and emits exactly that value; with the control flag
false it leaves the state untouched and emits no arbitration-driven change
event. -/
theorem c2_backdrop_arbitration (st st' : ContainerState) (evs : List Event)
    (h : _onToggle st = Except.ok (st', evs)) :
    (st.allowSidebarBackdropControl = true →
      st'.showBackdrop = hasOpenBackdrop st._sidebars
      ∧ evs = [Event.showBackdropChange (hasOpenBackdrop st._sidebars)]
      ∧ (st'.showBackdrop = true ↔
          st.allowSidebarBackdropControl = true
          ∧ ∃ s : Sidebar, some s ∈ st._sidebars ∧ s.opened = true
              ∧ s.showBackdrop = true))
    ∧ (st.allowSidebarBackdropControl = false → st' = st ∧ evs = []) := by
  constructor
  · intro ha
    unfold _onToggle at h
    rw [if_pos ha] at h
    cases hq : someOpenBackdrop st._sidebars with
    | error e => rw [hq] at h; cases h
    | ok b =>
      rw [hq] at h
      simp only [Except.ok.injEq, Prod.mk.injEq] at h
      obtain ⟨h1, h2⟩ := h
      have hb := someOpenBackdrop_ok st._sidebars b hq
      subst h1 h2
      refine ⟨by simp [hb], by simp [hb], ?_⟩
      simp only [ha, eq_self_iff_true, true_and]
      show b = true ↔ _
      rw [← hb]
      exact hasOpenBackdrop_iff st._sidebars
  · intro hf
    unfold _onToggle at h
    rw [if_neg (by simp [hf])] at h
    simp only [Except.ok.injEq, Prod.mk.injEq] at h
    exact ⟨h.1.symm, h.2.symm⟩

/-- Witness for C2 at a concrete input: one open backdrop-requesting panel
with backdrop control allowed; the toggle sets `showBackdrop` to the
arbitrated value. -/
theorem c2_witness :
    _onToggle stToggleDemo =
      Except.ok ({ stToggleDemo with showBackdrop := true },
        [Event.showBackdropChange true])
    ∧ ({ stToggleDemo with showBackdrop := true } : ContainerState).showBackdrop
        = hasOpenBackdrop stToggleDemo._sidebars := by
  refine ⟨rfl, ?_⟩
  exact ((c2_backdrop_arbitration stToggleDemo
    { stToggleDemo with showBackdrop := true }
    [Event.showBackdropChange true] rfl).1 rfl).1

/-- Claim C6: clicking the backdrop invokes `close()` on exactly the tracked
panels satisfying `opened && showBackdrop && closeOnClickBackdrop`, in
iteration order; in particular, of three open backdrop-showing panels of
which only the first two have `closeOnClickBackdrop`, exactly those two are
closed and the third is not. -/
theorem c6_backdrop_click_selectivity (ps : List Sidebar) :
    _onBackdropClicked (ps.map some) =
      (ps.filter (fun s => s.opened && s.showBackdrop && s.closeOnClickBackdrop),
        true)
    ∧ _onBackdropClicked
        [some (pBackdrop true), some (pBackdrop true), some (pBackdrop false)] =
        ([pBackdrop true, pBackdrop true], true) := by
  refine ⟨?_, by decide⟩
  induction ps with
  | nil => rfl
  | cons s rest ih =>
    simp only [List.map_cons, _onBackdropClicked, ih, List.filter_cons]
    by_cases hp : (s.opened && s.showBackdrop && s.closeOnClickBackdrop) = true <;>
      simp [hp]

/-- Counterexample to claim C7 as stated: with the browser flag false, the
style computation invoked from the template is not a no-op — it still
computes a non-default style from the panels (the source has no platform
guard in `_getContentStyles`). -/
theorem c7_counterexample :
    stNoBrowser._isBrowser = false
    ∧ (renderContentStyles stNoBrowser).padding = "0px 0px 0px 200px"
    ∧ (renderContentStyles stNoBrowser).padding ≠ "0px 0px 0px 0px" :=
  ⟨rfl, rfl, by decide⟩

/-- Claim C7 (amended): when the browser flag is false the lifecycle entry
points are no-ops — `ngAfterContentInit` neither toggles nor subscribes to
the registry, `ngOnChanges` emits nothing, and `ngOnDestroy` releases no
subscriptions — but the template-driven style computation does not consult
the flag and computes the same styles it would on a browser platform. -/
theorem c7_amended_lifecycle_noop (st : ContainerState)
    (h : st._isBrowser = false) :
    ngAfterContentInit st = Except.ok (st, [], false)
    ∧ (∀ c : Option Bool, ngOnChanges st c = (st, []))
    ∧ ngOnDestroy st = []
    ∧ renderContentStyles st =
        renderContentStyles { st with _isBrowser := true } := by
  refine ⟨?_, ?_, ?_, rfl⟩
  · simp [ngAfterContentInit, h]
  · intro c; simp [ngOnChanges, h]
  · simp [ngOnDestroy, h]

/-- Witness for C7 (amended) at a concrete input: the non-browser state with
one push panel; the lifecycle hooks do nothing. -/
theorem c7_amended_witness :
    stNoBrowser._isBrowser = false
    ∧ ngAfterContentInit stNoBrowser = Except.ok (stNoBrowser, [], false)
    ∧ ngOnDestroy stNoBrowser = [] :=
  ⟨rfl, (c7_amended_lifecycle_noop stNoBrowser rfl).1,
    (c7_amended_lifecycle_noop stNoBrowser rfl).2.2.1⟩

/-- Counterexample to claim C8 as stated: a null reference is NOT skipped by
every iterating operation — the backdrop click handler faults immediately on
a null reference (no `close()` runs and the iteration does not complete),
and the toggle arbitration faults likewise. -/
theorem c8_counterexample :
    _onBackdropClicked [none] = ([], false)
    ∧ _onToggle stNullToggle = Except.error () :=
  ⟨rfl, rfl⟩

/-- Claim C8 (amended): the style computation and the unsubscription skip
null references without effect and complete normally, but the backdrop click
handler and the toggle arbitration have no null guard: a null reference at
the head of the sequence aborts them (the arbitration's `some` can only pass
a null by short-circuiting on an earlier satisfying panel). -/
theorem c8_amended_null_handling (sbs : List (Option Sidebar))
    (st : ContainerState) (hs : st._sidebars = none :: sbs)
    (ha : st.allowSidebarBackdropControl = true) :
    _getContentStyles sbs
        = _getContentStyles (sbs.filter (fun osb => osb.isSome))
    ∧ _getContentStyles (none :: sbs) = _getContentStyles sbs
    ∧ _unsubscribe sbs = sbs.filterMap id
    ∧ _unsubscribe (none :: sbs) = _unsubscribe sbs
    ∧ _onBackdropClicked (none :: sbs) = ([], false)
    ∧ _onToggle st = Except.error () := by
  refine ⟨?_, rfl, unsubscribe_eq_filterMap sbs, rfl, rfl, ?_⟩
  · unfold _getContentStyles foldAcc
    rw [foldl_styleStep_filter]
  · unfold _onToggle
    rw [if_pos ha, hs]
    rfl

/-- Witness for C8 (amended) at a concrete input: the state whose sequence
is a single null reference. -/
theorem c8_amended_witness :
    stNullToggle._sidebars = none :: ([] : List (Option Sidebar))
    ∧ stNullToggle.allowSidebarBackdropControl = true
    ∧ _onBackdropClicked (none :: ([] : List (Option Sidebar))) = ([], false)
    ∧ _onToggle stNullToggle = Except.error () := by
  refine ⟨rfl, rfl, ?_, ?_⟩
  · exact (c8_amended_null_handling [] stNullToggle rfl rfl).2.2.2.2.1
  · exact (c8_amended_null_handling [] stNullToggle rfl rfl).2.2.2.2.2

/-- Claim C10: the style computation is deterministic and effect-free — as a
state transformer it returns the container state unchanged (tracked panels
and `showBackdrop` included), and a second invocation on the resulting state
returns the same style record. -/
theorem c10_style_computation_pure (st : ContainerState) :
    (_getContentStylesS st).1 = st
    ∧ (_getContentStylesS st).1._sidebars = st._sidebars
    ∧ (_getContentStylesS st).1.showBackdrop = st.showBackdrop
    ∧ (_getContentStylesS ((_getContentStylesS st).1)).2 = (_getContentStylesS st).2
    ∧ renderContentStyles st = _getContentStyles st._sidebars :=
  ⟨rfl, rfl, rfl, rfl, rfl⟩

end NgSidebar
